import Mathlib

/-!
Verification development for the LinkVault Telegram bot (channel invite-link
sharing bot).  The definitions below are a shallow embedding of the code in
`config.py`, `database.py`, `handlers.py` and `main.py`:

  * MongoDB collections become Lean lists of records; `update_one` becomes an
    update of the first matching record, `delete_one` a removal of the first
    matching record, `delete_many` / `find_one` become `filter` / `find?`.
  * `datetime.utcnow()` becomes an explicit clock argument.  Where the source
    reads the clock several times in one operation, the embedding takes one
    argument per read, with monotonicity (`now1 ≤ now2`) as the only
    assumption about the real clock.
  * The deep-link handler `handle_deep_link` becomes a pure function from the
    pre-state, the payload, and the outcome of the external
    `create_chat_invite_link` call to a reply and a post-state.
-/

namespace LinkVault

/-! ### Identifier codec

`handlers.py` calls `db.encode_channel_id` and `db.decode_channel_id`, but no
definition of these methods appears in the source files (in particular not in
`database.py`, which defines the `Database` class).  The codec is therefore
modelled from the spec, see the doc comments on `encode_channel_id` and
`decode_channel_id` below.  The model: a zigzag map from signed integers to
naturals followed by a little-endian decimal digit rendering; decoding parses
strictly and rejects any character that is not a decimal digit, so it is
mode-agnostic and fails on payloads that still carry the req_ mode tag. -/

/-- Zigzag map sending a signed integer to a natural number:
nonnegative x goes to 2x, negative x goes to 2(-x) - 1. -/
def zigzag (x : Int) : Nat :=
  if 0 ≤ x then 2 * x.toNat else 2 * (-x).toNat - 1

/-- Inverse of `zigzag`. -/
def unzigzag (n : Nat) : Int :=
  if n % 2 = 0 then (n / 2 : Nat) else -(((n + 1) / 2 : Nat) : Int)

/-- Little-endian base-10 digits of a natural number, with a structural fuel
argument so that the definition reduces by evaluation. -/
def natDigitsAux : Nat → Nat → List Nat
  | 0, _ => []
  | fuel + 1, n => if n < 10 then [n] else n % 10 :: natDigitsAux fuel (n / 10)

/-- Little-endian base-10 digits of a natural number (never empty). -/
def natDigits (n : Nat) : List Nat := natDigitsAux (n + 1) n

/-- Value of a little-endian digit list. -/
def digitsVal : List Nat → Nat
  | [] => 0
  | d :: ds => d + 10 * digitsVal ds

/-- Render one decimal digit as a character. -/
def digitChar (d : Nat) : Char := Char.ofNat (48 + d)

/-- Parse one character as a decimal digit; any other character is rejected. -/
def charDigit (c : Char) : Option Nat :=
  if 48 ≤ c.toNat ∧ c.toNat ≤ 57 then some (c.toNat - 48) else none

/-- Strict digit-string parser: every character must be a decimal digit. -/
def parseDigits : List Char → Option (List Nat)
  | [] => some []
  | c :: cs =>
    match charDigit c with
    | some d => (parseDigits cs).map (fun ds => d :: ds)
    | none => none

/-- Modelled from the spec: `encode_channel_id` is invoked as
`db.encode_channel_id(channel_id)` in the add-channel handler, but its
definition is missing from the source files.  Per the spec it is a
deterministic, reversible transform from a signed 64-bit channel identifier
to a short opaque string.  Payload strings are modelled as lists of
characters. -/
def encode_channel_id (x : Int) : List Char :=
  (natDigits (zigzag x)).map digitChar

/-- Modelled from the spec: `decode_channel_id` is invoked as
`db.decode_channel_id(payload)` in the deep-link handler, but its definition
is missing from the source files.  Per the spec it is the inverse of
`encode_channel_id`, is mode-agnostic (it does not itself handle the req_
mode tag), and decoding a malformed payload fails with a distinct invalid
outcome, modelled as `none`. -/
def decode_channel_id (s : List Char) : Option Int :=
  match s with
  | [] => none
  | _ => (parseDigits s).map (fun ds => unzigzag (digitsVal ds))

/-! ### Data model

Embeddings of the document shapes written by `database.py`.  Timestamps are
abstract clock values (`Nat`). -/

/-- A document of the `channels` collection, as written by
`Database.add_channel` in `database.py`. -/
structure Channel where
  channel_id : Int
  channel_name : String
  invite_link : Option String
  added_at : Nat
  total_joins : Nat
  is_active : Bool
  auto_approve : Bool
deriving DecidableEq, Repr

/-- A document of the `users` collection, as written by `Database.add_user`
in `database.py`. -/
structure UserRec where
  user_id : Int
  username : Option String
  first_name : Option String
  joined_at : Nat
  last_active : Nat
  total_requests : Nat
  is_banned : Bool
deriving DecidableEq, Repr

/-- A document of the `links` collection, as written by `Database.save_link`
in `database.py`. -/
structure Link where
  channel_id : Int
  invite_link : String
  link_type : String
  created_at : Nat
  expires_at : Nat
  uses : Nat
  is_active : Bool
deriving DecidableEq, Repr

/-- The state of the persistent store: the three collections the core
operates on (the `settings` collection is never used). -/
structure DBState where
  channels : List Channel
  users : List UserRec
  links : List Link
deriving DecidableEq, Repr

/-! ### MongoDB operation primitives

`update_one` updates the first matching document, `delete_one` deletes the
first matching document, `delete_many` deletes all matching documents,
`find_one` returns the first matching document. -/

/-- MongoDB `update_one`: apply `f` to the first document satisfying `p`. -/
def updateFirst (p : α → Bool) (f : α → α) : List α → List α
  | [] => []
  | a :: as => if p a then f a :: as else a :: updateFirst p f as

/-- MongoDB `delete_one`: remove the first document satisfying `p`. -/
def deleteFirst (p : α → Bool) : List α → List α
  | [] => []
  | a :: as => if p a then as else a :: deleteFirst p as

/-! ### Database operations (`database.py`) -/

/-- Embedding of `Database.get_channel`: `find_one({"channel_id": channel_id})`. -/
def get_channel (st : DBState) (cid : Int) : Option Channel :=
  st.channels.find? (fun c => c.channel_id == cid)

/-- Embedding of `Database.remove_channel`: `delete_one` on the channel, and
only when a document was actually deleted (`deleted_count > 0`),
`delete_many` on the links of that channel and result `True`; otherwise
result `False` with nothing touched. -/
def remove_channel (st : DBState) (cid : Int) : Bool × DBState :=
  if st.channels.any (fun c => c.channel_id == cid) then
    (true,
     { st with
        channels := deleteFirst (fun c => c.channel_id == cid) st.channels,
        links := st.links.filter (fun l => !(l.channel_id == cid)) })
  else
    (false, st)

/-- Embedding of `Database.increment_channel_joins`:
`update_one({"channel_id": channel_id}, {"$inc": {"total_joins": 1}})`. -/
def increment_channel_joins (st : DBState) (cid : Int) : DBState :=
  { st with
      channels := updateFirst (fun c => c.channel_id == cid)
        (fun c => { c with total_joins := c.total_joins + 1 }) st.channels }

/-- Embedding of `Database.save_link`: inserts a fresh link document.  The
source reads the clock twice while building the document, once for
`created_at` and once (adding the configured TTL) for `expires_at`; the two
reads are the arguments `now1` and `now2`.  `ttl` is
`Config.LINK_EXPIRY_MINUTES` expressed in abstract clock units. -/
def save_link (st : DBState) (cid : Int) (link : String) (ltype : String)
    (ttl : Nat) (now1 now2 : Nat) : DBState :=
  { st with
      links := st.links ++
        [{ channel_id := cid,
           invite_link := link,
           link_type := ltype,
           created_at := now1,
           expires_at := now2 + ttl,
           uses := 0,
           is_active := true }] }

/-- Embedding of `Database.cleanup_expired_links`:
`delete_many({"expires_at": {"$lt": now}})`. -/
def cleanup_expired_links (st : DBState) (now : Nat) : DBState :=
  { st with links := st.links.filter (fun l => !(decide (l.expires_at < now))) }

/-- Embedding of `Database.add_user`: an upsert whose `$set` document carries
`user_id`, `username`, `first_name`, a fresh `joined_at`, a fresh
`last_active`, `total_requests = 0` and `is_banned = False`, and whose
`$setOnInsert` carries a fresh `joined_at`.  On a match the `$set` document
is applied to the existing record ($setOnInsert is ignored on a match);
without a match the union is inserted.  (Real MongoDB would even reject the
statement outright, since `joined_at` occurs in both `$set` and
`$setOnInsert`; the embedding charitably ignores that conflict and applies
the `$set` semantics.)  `now` is the clock value of the utcnow reads. -/
def add_user (st : DBState) (uid : Int) (uname fname : Option String)
    (now : Nat) : DBState :=
  if st.users.any (fun u => u.user_id == uid) then
    { st with
        users := updateFirst (fun u => u.user_id == uid)
          (fun _ => { user_id := uid,
                      username := uname,
                      first_name := fname,
                      joined_at := now,
                      last_active := now,
                      total_requests := 0,
                      is_banned := false }) st.users }
  else
    { st with
        users := st.users ++
          [{ user_id := uid,
             username := uname,
             first_name := fname,
             joined_at := now,
             last_active := now,
             total_requests := 0,
             is_banned := false }] }

/-- Embedding of `Database.update_last_active`:
`update_one({"user_id": user_id}, {"$set": {"last_active": now}, "$inc":
{"total_requests": 1}})` (no upsert: a missing user is left missing). -/
def update_last_active (st : DBState) (uid : Int) (now : Nat) : DBState :=
  { st with
      users := updateFirst (fun u => u.user_id == uid)
        (fun u => { u with
            last_active := now,
            total_requests := u.total_requests + 1 }) st.users }

/-! ### Deep-link handler (`handlers.py`, `handle_deep_link`) -/

/-- Embedding of the Python test `payload.startswith(req_tag)` where the tag
is the four characters r, e, q, underscore. -/
def startsWithReq : List Char → Bool
  | 'r' :: 'e' :: 'q' :: '_' :: _ => true
  | _ => false

/-- The four-character mode tag itself, for building request payloads. -/
def reqTag : List Char := ['r', 'e', 'q', '_']

/-- The user-visible outcome of `handle_deep_link`.  The constructors follow
the error taxonomy of the spec; `channelInactive` is part of that taxonomy
but, as the theorems below show, is never produced by the embedded code. -/
inductive DeepLinkReply where
  /-- Reply: Invalid link. Please try again. -/
  | invalidLink : DeepLinkReply
  /-- Reply: Channel not found or has been removed. -/
  | channelNotFound : DeepLinkReply
  /-- The spec taxonomy outcome for a disabled channel. -/
  | channelInactive : DeepLinkReply
  /-- Reply: Failed to generate invite link (permissions and similar). -/
  | issuanceFailed : DeepLinkReply
  /-- The generated invite link was sent, with its request-mode flag. -/
  | success (link : String) (isRequest : Bool) : DeepLinkReply
deriving DecidableEq, Repr

/-- Embedding of `handle_deep_link` in `handlers.py`.  Arguments:

  * `st` — the pre-state of the persistent store;
  * `payload` — the deep-link payload from the start command;
  * `mint` — the outcome of the external `create_chat_invite_link` call
    (`some link` on success, `none` when the external call raises);
  * `ttl`, `now1`, `now2` — the configured link TTL and the two clock reads
    performed by `save_link`.

Control flow of the source, in order: set `is_request_link` from the
payload; `channel_id = db.decode_channel_id(payload)` on the whole payload;
a falsy `channel_id` (Python: `None` or `0`) replies invalid; a missing
channel replies not-found; then the invite is minted (whose failure replies
the issuance-failure message and changes nothing), the link is saved with
type request or invite, and the join counter is incremented. -/
def handle_deep_link (st : DBState) (payload : List Char)
    (mint : Option String) (ttl : Nat) (now1 now2 : Nat) :
    DeepLinkReply × DBState :=
  let isRequest := startsWithReq payload
  match decode_channel_id payload with
  | none => (.invalidLink, st)
  | some cid =>
    if cid = 0 then (.invalidLink, st)
    else
      match get_channel st cid with
      | none => (.channelNotFound, st)
      | some _ =>
        match mint with
        | none => (.issuanceFailed, st)
        | some link =>
          let st1 := save_link st cid link
            (if isRequest then "request" else "invite") ttl now1 now2
          let st2 := increment_channel_joins st1 cid
          (.success link isRequest, st2)

/-! ### Store operations of concurrent issuances

A successful issuance performs two independent single-document store
operations: the link insert of `save_link` and the atomic counter increment
of `increment_channel_joins`.  N concurrent issuances interleave these
operations in an arbitrary order; an interleaving is modelled as any list of
such operations. -/

/-- One single-document store operation performed by an issuance. -/
inductive StoreOp where
  /-- The insert performed by `save_link`. -/
  | save (cid : Int) (link : String) (ltype : String)
      (ttl : Nat) (now1 now2 : Nat) : StoreOp
  /-- The atomic increment performed by `increment_channel_joins`. -/
  | incJoins (cid : Int) : StoreOp
deriving DecidableEq, Repr

/-- Effect of one store operation on the store state. -/
def applyStoreOp (st : DBState) : StoreOp → DBState
  | .save cid link ltype ttl now1 now2 =>
      save_link st cid link ltype ttl now1 now2
  | .incJoins cid => increment_channel_joins st cid

/-- Effect of a sequence of store operations, first operation first. -/
def applyStoreOps (st : DBState) (ops : List StoreOp) : DBState :=
  ops.foldl applyStoreOp st

/-- The link document inserted by a save operation (junk on `incJoins`). -/
def opLink : StoreOp → List Link
  | .save cid link ltype ttl now1 now2 =>
      [{ channel_id := cid,
         invite_link := link,
         link_type := ltype,
         created_at := now1,
         expires_at := now2 + ttl,
         uses := 0,
         is_active := true }]
  | .incJoins _ => []

/-- Whether a store operation is a save for channel `cid`. -/
def isSaveFor (cid : Int) : StoreOp → Bool
  | .save c _ _ _ _ _ => c == cid
  | .incJoins _ => false

/-- Whether a store operation is a counter increment for channel `cid`. -/
def isIncFor (cid : Int) : StoreOp → Bool
  | .save _ _ _ _ _ _ => false
  | .incJoins c => c == cid

/-! ### Concrete records and states used by witnesses and counterexamples -/

/-- An active registered channel with identifier -123 and 7 recorded joins. -/
def chActive : Channel :=
  { channel_id := -123,
    channel_name := "Example",
    invite_link := none,
    added_at := 0,
    total_joins := 7,
    is_active := true,
    auto_approve := false }

/-- The same channel record with the is_active flag cleared. -/
def chInactive : Channel := { chActive with is_active := false }

/-- A second registered channel with identifier -456. -/
def chOther : Channel :=
  { channel_id := -456,
    channel_name := "Other",
    invite_link := none,
    added_at := 0,
    total_joins := 2,
    is_active := true,
    auto_approve := false }

/-- A user record created at time 100 with 5 recorded requests. -/
def userPrior : UserRec :=
  { user_id := 1,
    username := some "alice",
    first_name := some "Alice",
    joined_at := 100,
    last_active := 150,
    total_requests := 5,
    is_banned := false }

/-- A link for channel -123 that expires at time 5. -/
def linkStale : Link :=
  { channel_id := -123,
    invite_link := "https://t.me/+old",
    link_type := "invite",
    created_at := 0,
    expires_at := 5,
    uses := 0,
    is_active := true }

/-- A link for channel -123 that expires at time 45, already deactivated. -/
def linkFresh : Link :=
  { channel_id := -123,
    invite_link := "https://t.me/+new",
    link_type := "request",
    created_at := 40,
    expires_at := 45,
    uses := 1,
    is_active := false }

/-- A link for channel -456 that expires at time 5. -/
def linkOther : Link :=
  { channel_id := -456,
    invite_link := "https://t.me/+other",
    link_type := "invite",
    created_at := 0,
    expires_at := 5,
    uses := 0,
    is_active := true }

/-- A store state with two active channels and no links. -/
def stActive : DBState :=
  { channels := [chActive, chOther], users := [], links := [] }

/-- A store state whose only channel exists but is inactive. -/
def stInactive : DBState :=
  { channels := [chInactive], users := [], links := [] }

/-- A store state with one pre-existing user record. -/
def stUser : DBState :=
  { channels := [], users := [userPrior], links := [] }

/-- A store state with two channels, one user and three links. -/
def stFull : DBState :=
  { channels := [chActive, chOther],
    users := [userPrior],
    links := [linkStale, linkOther, linkFresh] }

/-- An interleaving of the store operations of two concurrent issuances for
channel -123: save, increment, save, increment. -/
def opsTwo : List StoreOp :=
  [.save (-123) "https://t.me/+a" "invite" 5 0 0,
   .incJoins (-123),
   .save (-123) "https://t.me/+b" "request" 5 1 2,
   .incJoins (-123)]

/-! ### Codec lemmas -/

theorem unzigzag_zigzag (x : Int) : unzigzag (zigzag x) = x := by
  unfold zigzag unzigzag
  by_cases hx : 0 ≤ x
  · have hx2 : (x.toNat : Int) = x := Int.toNat_of_nonneg hx
    rw [if_pos hx, if_pos (by omega : (2 * x.toNat) % 2 = 0)]
    omega
  · have hx2 : ((-x).toNat : Int) = -x := Int.toNat_of_nonneg (by omega)
    rw [if_neg hx, if_neg (by omega : ¬(2 * (-x).toNat - 1) % 2 = 0)]
    omega

theorem digitsVal_natDigitsAux (fuel n : Nat) (h : n < fuel) :
    digitsVal (natDigitsAux fuel n) = n := by
  induction fuel generalizing n with
  | zero => omega
  | succ fuel ih =>
    unfold natDigitsAux
    by_cases hn : n < 10
    · simp [hn, digitsVal]
    · simp only [if_neg hn, digitsVal]
      have hlt : n / 10 < fuel := by omega
      rw [ih (n / 10) hlt]
      omega

theorem digitsVal_natDigits (n : Nat) : digitsVal (natDigits n) = n :=
  digitsVal_natDigitsAux (n + 1) n (Nat.lt_succ_self n)

theorem natDigitsAux_lt_ten (fuel n : Nat) (h : n < fuel) :
    ∀ d ∈ natDigitsAux fuel n, d < 10 := by
  induction fuel generalizing n with
  | zero => omega
  | succ fuel ih =>
    unfold natDigitsAux
    by_cases hn : n < 10
    · simp [hn]
    · simp only [if_neg hn, List.mem_cons]
      intro d hd
      rcases hd with hd | hd
      · omega
      · exact ih (n / 10) (by omega) d hd

theorem natDigits_lt_ten (n : Nat) : ∀ d ∈ natDigits n, d < 10 :=
  natDigitsAux_lt_ten (n + 1) n (Nat.lt_succ_self n)

theorem charDigit_digitChar (d : Nat) (h : d < 10) :
    charDigit (digitChar d) = some d := by
  interval_cases d <;> decide

theorem parseDigits_map_digitChar (ds : List Nat) (h : ∀ d ∈ ds, d < 10) :
    parseDigits (ds.map digitChar) = some ds := by
  induction ds with
  | nil => rfl
  | cons d ds ih =>
    simp only [List.map_cons, parseDigits]
    rw [charDigit_digitChar d (h d (List.mem_cons_self d ds))]
    rw [ih (fun x hx => h x (List.mem_cons_of_mem d hx))]
    rfl

theorem decode_encode (x : Int) :
    decode_channel_id (encode_channel_id x) = some x := by
  unfold decode_channel_id encode_channel_id
  have hne : (natDigits (zigzag x)).map digitChar ≠ [] := by
    unfold natDigits natDigitsAux
    by_cases h : zigzag x < 10 <;> simp [h]
  match hm : (natDigits (zigzag x)).map digitChar with
  | [] => exact absurd hm hne
  | c :: cs =>
    rw [← hm]
    rw [parseDigits_map_digitChar _ (natDigits_lt_ten (zigzag x))]
    simp [digitsVal_natDigits, unzigzag_zigzag]

/-! ### Helper lemmas on the store primitives -/

theorem find?_updateFirst_same (p : α → Bool) (f : α → α)
    (hpf : ∀ a, p a = true → p (f a) = true) (l : List α) :
    (updateFirst p f l).find? p = (l.find? p).map f := by
  induction l with
  | nil => rfl
  | cons a as ih =>
    by_cases hp : p a = true
    · simp [updateFirst, hp, List.find?_cons, hpf a hp]
    · have hp' : p a = false := by simp at hp; simp [hp]
      simp [updateFirst, hp', List.find?_cons, ih]

theorem find?_updateFirst_ne (p q : α → Bool) (f : α → α) (l : List α)
    (hqf : ∀ a, q (f a) = q a) (hpq : ∀ a, p a = true → q a = false) :
    (updateFirst p f l).find? q = l.find? q := by
  induction l with
  | nil => rfl
  | cons a as ih =>
    by_cases hp : p a = true
    · simp [updateFirst, hp, List.find?_cons, hqf a, hpq a hp]
    · have hp' : p a = false := by simp at hp; simp [hp]
      by_cases hq : q a = true
      · simp [updateFirst, hp', List.find?_cons, hq]
      · have hq' : q a = false := by simp at hq; simp [hq]
        simp [updateFirst, hp', List.find?_cons, hq', ih]

theorem countP_le_one_deleteFirst (p : α → Bool) (l : List α)
    (h : l.countP p ≤ 1) :
    deleteFirst p l = l.filter (fun a => !p a) := by
  induction l with
  | nil => rfl
  | cons a as ih =>
    rw [List.countP_cons] at h
    by_cases hp : p a = true
    · have hzero : as.countP p = 0 := by
        rw [hp, if_pos rfl] at h
        omega
      have hall : ∀ b ∈ as, ¬(p b = true) := by
        rw [List.countP_eq_zero] at hzero; exact hzero
      have : as.filter (fun a => !p a) = as := by
        rw [List.filter_eq_self]
        intro b hb
        simp [Bool.eq_false_iff.mpr (hall b hb)]
      simp [deleteFirst, hp, this]
    · have hp' : p a = false := by simp at hp; simp [hp]
      have h' : as.countP p ≤ 1 := by simp [hp'] at h; omega
      simp [deleteFirst, hp', ih h']

theorem nodup_key_countP_le_one (key : α → Int) (v : Int) (l : List α)
    (h : (l.map key).Nodup) : l.countP (fun a => key a == v) ≤ 1 := by
  induction l with
  | nil => simp
  | cons a as ih =>
    rw [List.map_cons, List.nodup_cons] at h
    rw [List.countP_cons]
    by_cases ha : key a == v
    · have hv : key a = v := by simpa using ha
      have hzero : as.countP (fun a => key a == v) = 0 := by
        rw [List.countP_eq_zero]
        intro b hb
        simp only [beq_iff_eq]
        intro hbv
        exact h.1 (hv ▸ hbv ▸ List.mem_map_of_mem key hb)
      simp [ha, hzero]
    · have ha' : (key a == v) = false := by simpa using ha
      have := ih h.2
      simp [ha']
      omega

theorem get_channel_save_link (st : DBState) (cid cid' : Int)
    (link ltype : String) (ttl now1 now2 : Nat) :
    get_channel (save_link st cid' link ltype ttl now1 now2) cid
      = get_channel st cid := rfl

theorem get_channel_increment (st : DBState) (cid cid' : Int) :
    get_channel (increment_channel_joins st cid') cid
      = (get_channel st cid).map
          (fun c => if cid' == cid
            then { c with total_joins := c.total_joins + 1 } else c) := by
  by_cases hc : cid' = cid
  · subst hc
    show (updateFirst (fun c => c.channel_id == cid')
        (fun c => { c with total_joins := c.total_joins + 1 })
        st.channels).find? (fun c => c.channel_id == cid') = _
    rw [find?_updateFirst_same (fun c : Channel => c.channel_id == cid')
        (fun c : Channel => { c with total_joins := c.total_joins + 1 })
        (fun a ha => by simpa using ha)]
    simp [get_channel]
  · have hne : (cid' == cid) = false := by simpa using hc
    show (updateFirst (fun c => c.channel_id == cid')
        (fun c => { c with total_joins := c.total_joins + 1 })
        st.channels).find? (fun c => c.channel_id == cid) = _
    rw [find?_updateFirst_ne (fun c : Channel => c.channel_id == cid')
        (fun c : Channel => c.channel_id == cid)
        (fun c : Channel => { c with total_joins := c.total_joins + 1 })
        st.channels (fun a => rfl)
        (fun a ha => by
          have h1 : a.channel_id = cid' := by simpa using ha
          simp [h1, hc])]
    simp [get_channel, hne]

theorem links_applyStoreOp (st : DBState) (op : StoreOp) :
    (applyStoreOp st op).links = st.links ++ opLink op := by
  cases op with
  | save cid link ltype ttl now1 now2 => rfl
  | incJoins cid => simp [applyStoreOp, increment_channel_joins, opLink]

theorem links_applyStoreOps (st : DBState) (ops : List StoreOp) :
    (applyStoreOps st ops).links = st.links ++ (ops.map opLink).flatten := by
  induction ops generalizing st with
  | nil => simp [applyStoreOps]
  | cons op ops ih =>
    show (applyStoreOps (applyStoreOp st op) ops).links = _
    rw [ih, links_applyStoreOp]
    simp

theorem get_channel_applyStoreOp (st : DBState) (cid : Int) (op : StoreOp) :
    get_channel (applyStoreOp st op) cid
      = (get_channel st cid).map
          (fun c => if isIncFor cid op
            then { c with total_joins := c.total_joins + 1 } else c) := by
  cases op with
  | save cid' link ltype ttl now1 now2 =>
    rw [show applyStoreOp st (.save cid' link ltype ttl now1 now2)
          = save_link st cid' link ltype ttl now1 now2 from rfl]
    rw [get_channel_save_link]
    have : isIncFor cid (.save cid' link ltype ttl now1 now2) = false := rfl
    rw [this]
    simp
  | incJoins cid' =>
    rw [show applyStoreOp st (.incJoins cid')
          = increment_channel_joins st cid' from rfl]
    rw [get_channel_increment]
    have : isIncFor cid (.incJoins cid') = (cid' == cid) := rfl
    rw [this]

theorem get_channel_applyStoreOps (st : DBState) (cid : Int)
    (ops : List StoreOp) :
    get_channel (applyStoreOps st ops) cid
      = (get_channel st cid).map
          (fun c => { c with
              total_joins := c.total_joins + ops.countP (isIncFor cid) }) := by
  induction ops generalizing st with
  | nil =>
    simp only [applyStoreOps, List.foldl_nil, List.countP_nil]
    cases get_channel st cid <;> simp
  | cons op ops ih =>
    show get_channel (applyStoreOps (applyStoreOp st op) ops) cid = _
    rw [ih, get_channel_applyStoreOp]
    rw [List.countP_cons]
    cases hg : get_channel st cid with
    | none => simp
    | some c =>
      by_cases hop : isIncFor cid op = true
      · simp [hop]
        omega
      · have hop' : isIncFor cid op = false := by simp at hop; simp [hop]
        simp [hop']

theorem opLink_join_length (cid : Int) (ops : List StoreOp)
    (hall : ∀ op ∈ ops, isSaveFor cid op || isIncFor cid op) :
    ((ops.map opLink).flatten).length = ops.countP (isSaveFor cid) := by
  induction ops with
  | nil => simp
  | cons op ops ih =>
    have hop := hall op (List.mem_cons_self op ops)
    have ihh := ih (fun o ho => hall o (List.mem_cons_of_mem op ho))
    rw [List.map_cons, List.flatten_cons, List.length_append, ihh,
      List.countP_cons]
    cases op with
    | save c link ltype ttl n1 n2 =>
      have : isSaveFor cid (.save c link ltype ttl n1 n2) = true := by
        simp only [isSaveFor, isIncFor, Bool.or_false] at hop
        exact hop
      simp [opLink, this]
      omega
    | incJoins c =>
      have : isSaveFor cid (.incJoins c) = false := rfl
      simp [opLink, this]

theorem opLink_join_mem (cid : Int) (ops : List StoreOp)
    (hall : ∀ op ∈ ops, isSaveFor cid op || isIncFor cid op) :
    ∀ L ∈ (ops.map opLink).flatten,
      L.channel_id = cid ∧ L.is_active = true ∧ L.uses = 0 := by
  induction ops with
  | nil => simp
  | cons op ops ih =>
    have hop := hall op (List.mem_cons_self op ops)
    have ihh := ih (fun o ho => hall o (List.mem_cons_of_mem op ho))
    intro L hL
    rw [List.map_cons, List.flatten_cons, List.mem_append] at hL
    rcases hL with hL | hL
    · cases op with
      | save c link ltype ttl n1 n2 =>
        have hc : (c == cid) = true := by
          simp only [isSaveFor, isIncFor, Bool.or_false] at hop
          exact hop
        have hc' : c = cid := by simpa using hc
        simp only [opLink, List.mem_singleton] at hL
        subst hL
        exact ⟨hc', rfl, rfl⟩
      | incJoins c => simp [opLink] at hL
    · exact ihh L hL

/-! ### Claim theorems -/

/-- C1: for every signed 64-bit integer x usable as a channel identifier,
decoding the encoding of x yields x back: `decode_channel_id` is a left
inverse of `encode_channel_id`, as exercised where the add-channel handler
encodes a channel id into a deep-link payload and the deep-link handler
decodes it. -/
theorem decode_encode_roundtrip (x : Int)
    (hrange : -(2 ^ 63) ≤ x ∧ x < 2 ^ 63) :
    decode_channel_id (encode_channel_id x) = some x :=
  decode_encode x

/-- Witness for the C1 theorem at the supergroup-style channel identifier
-1001234567890. -/
theorem decode_encode_roundtrip_witness :
    (-(2 ^ 63) ≤ (-1001234567890 : Int) ∧ (-1001234567890 : Int) < 2 ^ 63)
    ∧ decode_channel_id (encode_channel_id (-1001234567890))
        = some (-1001234567890) :=
  ⟨by decide, decode_encode_roundtrip (-1001234567890) (by decide)⟩

/-- C2: the claim states that the deep-link handler strips the req_ mode tag
before the remainder is passed to the codec, so an approval-request payload
resolves to the same channel id as the direct payload.  The code passes the
whole payload, tag included, to `decode_channel_id` (handlers.py line 348);
with the mode-agnostic codec of the spec the tagged payload fails to decode.
At the concrete registry `stActive`: the direct payload for channel -123
issues an invite, while the corresponding req_ payload is bounced as an
invalid link with the store untouched. -/
theorem req_tag_not_stripped_before_decode :
    (handle_deep_link stActive (encode_channel_id (-123))
        (some "https://t.me/+abc") 5 10 10).1
      = .success "https://t.me/+abc" false
    ∧ handle_deep_link stActive (reqTag ++ encode_channel_id (-123))
        (some "https://t.me/+abc") 5 10 10
      = (.invalidLink, stActive) := by
  constructor
  · rfl
  · rfl

/-- C3 counterexample: issuance against the existing but inactive channel
-123 of `stInactive` is not rejected: the reply is a successful invite, not
the ChannelInactive failure, and the store changes. -/
theorem inactive_channel_not_rejected :
    (handle_deep_link stInactive (encode_channel_id (-123))
        (some "https://t.me/+abc") 5 10 10).1
      = .success "https://t.me/+abc" false
    ∧ (handle_deep_link stInactive (encode_channel_id (-123))
        (some "https://t.me/+abc") 5 10 10).2
      ≠ stInactive := by
  constructor
  · rfl
  · decide

/-- C3 amended: link issuance checks only that the requested channel record
exists; a request against an existing channel whose is_active flag is false
proceeds exactly as for an active channel: the invite is requested from the
external client and, when it succeeds, a Link record is saved and the join
counter incremented.  No ChannelInactive outcome is produced. -/
theorem issuance_ignores_is_active
    (st : DBState) (payload : List Char) (link : String)
    (ttl now1 now2 : Nat) (cid : Int) (ch : Channel)
    (hdec : decode_channel_id payload = some cid) (h0 : cid ≠ 0)
    (hch : get_channel st cid = some ch) (hflag : ch.is_active = false) :
    handle_deep_link st payload (some link) ttl now1 now2
      = (.success link (startsWithReq payload),
         increment_channel_joins
           (save_link st cid link
             (if startsWithReq payload then "request" else "invite")
             ttl now1 now2) cid) := by
  simp [handle_deep_link, hdec, h0, hch]

/-- Witness for the C3 amended theorem at the inactive channel -123. -/
theorem issuance_ignores_is_active_witness :
    (decode_channel_id (encode_channel_id (-123)) = some (-123)
      ∧ (-123 : Int) ≠ 0
      ∧ get_channel stInactive (-123) = some chInactive
      ∧ chInactive.is_active = false)
    ∧ handle_deep_link stInactive (encode_channel_id (-123))
        (some "https://t.me/+abc") 5 10 11
      = (.success "https://t.me/+abc"
           (startsWithReq (encode_channel_id (-123))),
         increment_channel_joins
           (save_link stInactive (-123) "https://t.me/+abc"
             (if startsWithReq (encode_channel_id (-123))
               then "request" else "invite")
             5 10 11) (-123)) :=
  ⟨⟨by decide, by decide, by decide, rfl⟩,
   issuance_ignores_is_active stInactive (encode_channel_id (-123))
     "https://t.me/+abc" 5 10 11 (-123) chInactive
     (by decide) (by decide) (by decide) rfl⟩

/-- C4: after a successful issuance the post-state contains exactly one new
Link record, with is_active true and uses 0, referencing the requested
channel, and the total_joins counter of that channel is exactly one greater
than in the pre-state; and for any interleaving of the store operations of N
concurrent issuances for the same channel, the end state has N new Link
records (each with is_active true and uses 0, referencing the channel) and
the counter incremented by N. -/
theorem issuance_creates_one_link_and_increments
    (st : DBState) (payload : List Char) (link : String)
    (ttl now1 now2 : Nat) (cid : Int) (ch : Channel)
    (hdec : decode_channel_id payload = some cid) (h0 : cid ≠ 0)
    (hch : get_channel st cid = some ch)
    (N : Nat) (ops : List StoreOp)
    (hall : ∀ op ∈ ops, isSaveFor cid op || isIncFor cid op)
    (hsaves : ops.countP (isSaveFor cid) = N)
    (hincs : ops.countP (isIncFor cid) = N) :
    (∃ L : Link,
      (handle_deep_link st payload (some link) ttl now1 now2).2.links
          = st.links ++ [L]
      ∧ L.channel_id = cid ∧ L.is_active = true ∧ L.uses = 0
      ∧ get_channel (handle_deep_link st payload (some link) ttl now1 now2).2
          cid = some { ch with total_joins := ch.total_joins + 1 })
    ∧ (∃ newLinks : List Link,
      (applyStoreOps st ops).links = st.links ++ newLinks
      ∧ newLinks.length = N
      ∧ (∀ L ∈ newLinks, L.channel_id = cid ∧ L.is_active = true ∧ L.uses = 0)
      ∧ get_channel (applyStoreOps st ops) cid
          = some { ch with total_joins := ch.total_joins + N }) := by
  have hrun : handle_deep_link st payload (some link) ttl now1 now2
      = (.success link (startsWithReq payload),
         increment_channel_joins
           (save_link st cid link
             (if startsWithReq payload then "request" else "invite")
             ttl now1 now2) cid) := by
    simp [handle_deep_link, hdec, h0, hch]
  constructor
  · refine ⟨{ channel_id := cid,
              invite_link := link,
              link_type :=
                if startsWithReq payload then "request" else "invite",
              created_at := now1,
              expires_at := now2 + ttl,
              uses := 0,
              is_active := true }, ?_, rfl, rfl, rfl, ?_⟩
    · rw [hrun]
      rfl
    · rw [hrun]
      show get_channel (increment_channel_joins _ cid) cid = _
      rw [get_channel_increment]
      rw [get_channel_save_link]
      rw [hch]
      simp
  · refine ⟨(ops.map opLink).flatten, links_applyStoreOps st ops, ?_,
      opLink_join_mem cid ops hall, ?_⟩
    · rw [opLink_join_length cid ops hall, hsaves]
    · rw [get_channel_applyStoreOps, hch, hincs]
      rfl

/-- Witness for the C4 theorem: one issuance for channel -123 against
`stActive`, and the interleaving `opsTwo` of two concurrent issuances. -/
theorem issuance_creates_one_link_and_increments_witness :
    (decode_channel_id (encode_channel_id (-123)) = some (-123)
      ∧ (-123 : Int) ≠ 0
      ∧ get_channel stActive (-123) = some chActive
      ∧ (∀ op ∈ opsTwo, isSaveFor (-123) op || isIncFor (-123) op)
      ∧ opsTwo.countP (isSaveFor (-123)) = 2
      ∧ opsTwo.countP (isIncFor (-123)) = 2)
    ∧ ((∃ L : Link,
      (handle_deep_link stActive (encode_channel_id (-123))
          (some "https://t.me/+abc") 5 10 11).2.links
          = stActive.links ++ [L]
      ∧ L.channel_id = -123 ∧ L.is_active = true ∧ L.uses = 0
      ∧ get_channel (handle_deep_link stActive (encode_channel_id (-123))
          (some "https://t.me/+abc") 5 10 11).2 (-123)
          = some { chActive with total_joins := chActive.total_joins + 1 })
    ∧ (∃ newLinks : List Link,
      (applyStoreOps stActive opsTwo).links = stActive.links ++ newLinks
      ∧ newLinks.length = 2
      ∧ (∀ L ∈ newLinks,
          L.channel_id = -123 ∧ L.is_active = true ∧ L.uses = 0)
      ∧ get_channel (applyStoreOps stActive opsTwo) (-123)
          = some { chActive with total_joins := chActive.total_joins + 2 })) :=
  ⟨⟨by decide, by decide, by decide, by decide, by decide, by decide⟩,
   issuance_creates_one_link_and_increments stActive
     (encode_channel_id (-123)) "https://t.me/+abc" 5 10 11 (-123) chActive
     (by decide) (by decide) (by decide) 2 opsTwo
     (by decide) (by decide) (by decide)⟩

/-- C5 counterexample: with TTL 5 and the two clock reads of `save_link`
returning 10 and then 11 (the source reads utcnow twice, once for created_at
and once for expires_at, so the reads need not coincide), the link created
by a successful issuance has created_at 10 and expires_at 16, and
16 ≠ 10 + 5. -/
theorem issuance_ttl_not_exact :
    (handle_deep_link stActive (encode_channel_id (-123))
        (some "https://t.me/+abc") 5 10 11).2.links
      = [{ channel_id := -123,
           invite_link := "https://t.me/+abc",
           link_type := "invite",
           created_at := 10,
           expires_at := 16,
           uses := 0,
           is_active := true }]
    ∧ (16 : Nat) ≠ 10 + 5 := by
  constructor
  · rfl
  · decide

/-- C5 amended: a link created by issuance has created_at equal to the first
clock read of `save_link` and expires_at equal to the second clock read plus
the configured TTL; with a monotone clock, expires_at is at least
created_at + TTL, and equals it exactly when the two reads coincide. -/
theorem save_link_expiry (st : DBState) (cid : Int) (link ltype : String)
    (ttl now1 now2 : Nat) (hmono : now1 ≤ now2) :
    ∃ L : Link,
      (save_link st cid link ltype ttl now1 now2).links = st.links ++ [L]
      ∧ L.created_at = now1 ∧ L.expires_at = now2 + ttl
      ∧ L.created_at + ttl ≤ L.expires_at
      ∧ (now2 = now1 → L.expires_at = L.created_at + ttl) := by
  refine ⟨_, rfl, rfl, rfl, ?_, ?_⟩
  · show now1 + ttl ≤ now2 + ttl
    omega
  · intro h
    show now2 + ttl = now1 + ttl
    omega

/-- Witness for the C5 amended theorem at clock reads 10 and 11 and TTL 5. -/
theorem save_link_expiry_witness :
    (10 : Nat) ≤ 11
    ∧ ∃ L : Link,
      (save_link stActive (-123) "https://t.me/+abc" "invite" 5 10 11).links
        = stActive.links ++ [L]
      ∧ L.created_at = 10 ∧ L.expires_at = 11 + 5
      ∧ L.created_at + 5 ≤ L.expires_at
      ∧ (11 = 10 → L.expires_at = L.created_at + 5) :=
  ⟨by decide,
   save_link_expiry stActive (-123) "https://t.me/+abc" "invite" 5 10 11
     (by decide)⟩

/-- C6: whenever the external invite-creation call fails during issuance,
the deep-link handler replies with the issuance-failure message and the
persistent store is exactly the pre-state: no Link record is created and no
counter is incremented. -/
theorem mint_failure_is_atomic (st : DBState) (payload : List Char)
    (ttl now1 now2 : Nat) (cid : Int) (ch : Channel)
    (hdec : decode_channel_id payload = some cid) (h0 : cid ≠ 0)
    (hch : get_channel st cid = some ch) :
    handle_deep_link st payload none ttl now1 now2
      = (.issuanceFailed, st) := by
  simp [handle_deep_link, hdec, h0, hch]

/-- Witness for the C6 theorem: a failing mint for channel -123. -/
theorem mint_failure_is_atomic_witness :
    (decode_channel_id (encode_channel_id (-123)) = some (-123)
      ∧ (-123 : Int) ≠ 0
      ∧ get_channel stActive (-123) = some chActive)
    ∧ handle_deep_link stActive (encode_channel_id (-123)) none 5 10 11
      = (.issuanceFailed, stActive) :=
  ⟨⟨by decide, by decide, by decide⟩,
   mint_failure_is_atomic stActive (encode_channel_id (-123)) 5 10 11
     (-123) chActive (by decide) (by decide) (by decide)⟩

/-- C7: a single sweep pass of `cleanup_expired_links` deletes every Link
record whose expires_at is strictly in the past and keeps every Link record
whose expires_at is not in the past, in list order and unmodified, in both
cases regardless of the is_active flag; channels and users are untouched. -/
theorem sweep_deletes_exactly_expired (st : DBState) (now : Nat) :
    (cleanup_expired_links st now).channels = st.channels
    ∧ (cleanup_expired_links st now).users = st.users
    ∧ (cleanup_expired_links st now).links.Sublist st.links
    ∧ (∀ L : Link,
        L ∈ (cleanup_expired_links st now).links
          ↔ (L ∈ st.links ∧ now ≤ L.expires_at)) := by
  refine ⟨rfl, rfl, List.filter_sublist _, ?_⟩
  intro L
  simp [cleanup_expired_links, List.mem_filter, Nat.not_lt]

/-- Witness for the C7 theorem: a sweep of `stFull` at time 10 removes the
two links that expire at 5 and keeps the deactivated link expiring at 45. -/
theorem sweep_deletes_exactly_expired_witness :
    (cleanup_expired_links stFull 10).channels = stFull.channels
    ∧ (cleanup_expired_links stFull 10).users = stFull.users
    ∧ (cleanup_expired_links stFull 10).links.Sublist stFull.links
    ∧ (linkStale ∈ (cleanup_expired_links stFull 10).links
        ↔ (linkStale ∈ stFull.links ∧ 10 ≤ linkStale.expires_at)) :=
  ⟨(sweep_deletes_exactly_expired stFull 10).1,
   (sweep_deletes_exactly_expired stFull 10).2.1,
   (sweep_deletes_exactly_expired stFull 10).2.2.1,
   (sweep_deletes_exactly_expired stFull 10).2.2.2 linkStale⟩

/-- C8: the claim states that user records obey upsert semantics with
joined_at immutable and total_requests monotonic.  The code violates it: the
whole $set document of add_user carries a fresh joined_at and
total_requests = 0, so every later interaction overwrites joined_at and
resets the counter.  Evaluating the code at the failing input: user 1 has a
prior record with joined_at 100 and total_requests 5; a later start
interaction (add_user then update_last_active, as start_command runs them)
at times 200 and 201 leaves joined_at 200 and total_requests 1. -/
theorem add_user_overwrites_history :
    (update_last_active
        (add_user stUser 1 (some "alice") (some "Alice") 200) 1 201).users
      = [{ user_id := 1,
           username := some "alice",
           first_name := some "Alice",
           joined_at := 200,
           last_active := 201,
           total_requests := 1,
           is_banned := false }]
    ∧ userPrior.joined_at = 100 ∧ userPrior.total_requests = 5
    ∧ stUser.users = [userPrior] := by
  refine ⟨rfl, rfl, rfl, rfl⟩

/-- C9: removing a registered channel deletes its channel record and every
Link record referencing it, while every other channel record and every Link
record referencing another channel survives unchanged and in order; users
are untouched. -/
theorem remove_channel_cascades (st : DBState) (cid : Int)
    (hmem : st.channels.any (fun c => c.channel_id == cid) = true)
    (huniq : (st.channels.map Channel.channel_id).Nodup) :
    (remove_channel st cid).1 = true
    ∧ (remove_channel st cid).2.users = st.users
    ∧ (∀ c : Channel,
        c ∈ (remove_channel st cid).2.channels
          ↔ (c ∈ st.channels ∧ c.channel_id ≠ cid))
    ∧ (∀ l : Link,
        l ∈ (remove_channel st cid).2.links
          ↔ (l ∈ st.links ∧ l.channel_id ≠ cid))
    ∧ (remove_channel st cid).2.links.Sublist st.links := by
  have hdel : deleteFirst (fun c : Channel => c.channel_id == cid) st.channels
      = st.channels.filter (fun c => !(c.channel_id == cid)) :=
    countP_le_one_deleteFirst _ _
      (nodup_key_countP_le_one Channel.channel_id cid st.channels huniq)
  refine ⟨?_, ?_, ?_, ?_, ?_⟩
  · simp [remove_channel, hmem]
  · simp [remove_channel, hmem]
  · intro c
    simp [remove_channel, hmem, hdel, List.mem_filter]
  · intro l
    simp [remove_channel, hmem, List.mem_filter]
  · simp [remove_channel, hmem]

/-- Witness for the C9 theorem: removing channel -123 from `stFull`. -/
theorem remove_channel_cascades_witness :
    (stFull.channels.any (fun c => c.channel_id == (-123 : Int)) = true
      ∧ (stFull.channels.map Channel.channel_id).Nodup)
    ∧ (remove_channel stFull (-123)).1 = true
    ∧ (remove_channel stFull (-123)).2.users = stFull.users
    ∧ (linkOther ∈ (remove_channel stFull (-123)).2.links
        ↔ (linkOther ∈ stFull.links ∧ linkOther.channel_id ≠ -123))
    ∧ (chActive ∈ (remove_channel stFull (-123)).2.channels
        ↔ (chActive ∈ stFull.channels ∧ chActive.channel_id ≠ -123)) :=
  ⟨⟨by decide, by decide⟩,
   (remove_channel_cascades stFull (-123) (by decide) (by decide)).1,
   (remove_channel_cascades stFull (-123) (by decide) (by decide)).2.1,
   (remove_channel_cascades stFull (-123) (by decide) (by decide)).2.2.2.1
     linkOther,
   (remove_channel_cascades stFull (-123) (by decide) (by decide)).2.2.1
     chActive⟩

/-- C10: removing a channel id that has no record returns failure and leaves
the whole store, links included, exactly as it was: the cascade runs only
after the channel record itself was deleted. -/
theorem remove_channel_absent_is_noop (st : DBState) (cid : Int)
    (h : ∀ c ∈ st.channels, c.channel_id ≠ cid) :
    remove_channel st cid = (false, st) := by
  have hany : st.channels.any (fun c => c.channel_id == cid) = false := by
    rw [List.any_eq_false]
    intro c hc
    simpa using h c hc
  simp [remove_channel, hany]

/-- Witness for the C10 theorem: removing the unregistered channel id -999
from `stFull`. -/
theorem remove_channel_absent_is_noop_witness :
    (∀ c ∈ stFull.channels, c.channel_id ≠ (-999 : Int))
    ∧ remove_channel stFull (-999) = (false, stFull) :=
  ⟨by decide, remove_channel_absent_is_noop stFull (-999) (by decide)⟩

end LinkVault
